import Mathlib

set_option autoImplicit false

/-
Shallow embedding of the agent configuration subsystem
(`agent/config/config.go` plus its merge engine and flag-value helpers).

Go conventions mapped to Lean:
  * pointer-to-scalar fields (`*string`, `*bool`, `*int`, `*time.Duration`)
    become `Option _` — `none` is the nil pointer ("field absent");
  * `time.Duration` values become `Int` (nanoseconds, as in Go);
  * slices become `List String` (a nil slice and an empty slice are not
    distinguished, which is faithful for every operation used here);
  * `map[string]string` becomes an association list `List (String × String)`
    built only by keyed insert, so a key occurs at most once;
  * a function returning `(T, error)` becomes `T × Option String` (the
    `Option String` is the error, `none` = nil error), or `Except String T`
    for the value parsers.
-/

namespace ConsulAgentConfig

/-- Ports is the nested group of port fields inside a ConfigFile
(`type Ports struct` in config.go). All fields are `*int` in Go. -/
structure Ports where
  DNS : Option Int := none
  HTTP : Option Int := none
  HTTPS : Option Int := none
  SerfLAN : Option Int := none
  SerfWAN : Option Int := none
  Server : Option Int := none
  DeprecatedRPC : Option Int := none
deriving DecidableEq

/-- RetryJoinAzure mirrors `type RetryJoinAzure struct` in config.go. -/
structure RetryJoinAzure where
  TagName : Option String := none
  TagValue : Option String := none
  SubscriptionID : Option String := none
  TenantID : Option String := none
  ClientID : Option String := none
  SecretAccessKey : Option String := none
deriving DecidableEq

/-- RetryJoinEC2 mirrors `type RetryJoinEC2 struct` in config.go. -/
structure RetryJoinEC2 where
  Region : Option String := none
  TagKey : Option String := none
  TagValue : Option String := none
  AccessKeyID : Option String := none
  SecretAccessKey : Option String := none
deriving DecidableEq

/-- RetryJoinGCE mirrors `type RetryJoinGCE struct` in config.go. -/
structure RetryJoinGCE where
  ProjectName : Option String := none
  ZonePattern : Option String := none
  TagValue : Option String := none
  CredentialsFile : Option String := none
deriving DecidableEq

/-- ConfigFile mirrors `type ConfigFile struct` in config.go: the sparse
configuration fragment. Every scalar field is a pointer in Go (`Option`
here), list fields are slices, NodeMeta is a string map. -/
structure ConfigFile where
  AdvertiseAddrLAN : Option String := none
  AdvertiseAddrWAN : Option String := none
  BindAddr : Option String := none
  Bootstrap : Option Bool := none
  BootstrapExpect : Option Int := none
  CheckUpdateInterval : Option String := none
  ClientAddr : Option String := none
  DNSDomain : Option String := none
  DNSRecursors : List String := []
  DataDir : Option String := none
  Datacenter : Option String := none
  DevMode : Option Bool := none
  DisableHostNodeID : Option Bool := none
  DisableKeyringFile : Option Bool := none
  EnableScriptChecks : Option Bool := none
  EnableSyslog : Option Bool := none
  EnableUI : Option Bool := none
  EncryptKey : Option String := none
  JoinAddrsLAN : List String := []
  JoinAddrsWAN : List String := []
  LogLevel : Option String := none
  NodeID : Option String := none
  NodeMeta : List (String × String) := []
  NodeName : Option String := none
  NonVotingServer : Option Bool := none
  PidFile : Option String := none
  Ports : Ports := {}
  RPCProtocol : Option Int := none
  RaftProtocol : Option Int := none
  RejoinAfterLeave : Option Bool := none
  RetryJoinIntervalLAN : Option Int := none
  RetryJoinIntervalWAN : Option Int := none
  RetryJoinLAN : List String := []
  RetryJoinMaxAttemptsLAN : Option Int := none
  RetryJoinMaxAttemptsWAN : Option Int := none
  RetryJoinWAN : List String := []
  SerfBindAddrLAN : Option String := none
  SerfBindAddrWAN : Option String := none
  ServerMode : Option Bool := none
  UIDir : Option String := none
  DeprecatedRetryJoinAzure : RetryJoinAzure := {}
  DeprecatedRetryJoinEC2 : RetryJoinEC2 := {}
  DeprecatedRetryJoinGCE : RetryJoinGCE := {}
deriving DecidableEq

/-- emptyPorts is the Go zero value `Ports{}` (all pointers nil). -/
def emptyPorts : Ports := {}

/-- emptyConfigFile is the Go zero value `ConfigFile{}`. -/
def emptyConfigFile : ConfigFile := {}

/-- mergeScalar is the scalar merge rule: a Present (non-nil) value in the
higher-precedence fragment replaces the accumulator, an Absent value leaves
it unchanged. -/
def mergeScalar {α : Type} (acc cur : Option α) : Option α :=
  if cur.isSome then cur else acc

/-- mergeList is the list merge rule: the current fragment's entries are
appended to the accumulator in order (appending an empty list is a no-op,
so non-empty-only appending is the same function). -/
def mergeList (acc cur : List String) : List String :=
  acc ++ cur

/-- mergeMap is the map merge rule: a non-empty map in the current fragment
replaces the accumulator's map wholesale. -/
def mergeMap (acc cur : List (String × String)) : List (String × String) :=
  if cur.isEmpty then acc else cur

/-- Modelled from the spec: the merge engine's step for the nested Ports
group. The repository's `Merge` function is not among the provided source
files (only its test, TestMerge, is); the spec prescribes that merging is
applied "independently per field, recursively into nested groups". -/
def mergePorts (acc cur : Ports) : Ports where
  DNS := mergeScalar acc.DNS cur.DNS
  HTTP := mergeScalar acc.HTTP cur.HTTP
  HTTPS := mergeScalar acc.HTTPS cur.HTTPS
  SerfLAN := mergeScalar acc.SerfLAN cur.SerfLAN
  SerfWAN := mergeScalar acc.SerfWAN cur.SerfWAN
  Server := mergeScalar acc.Server cur.Server
  DeprecatedRPC := mergeScalar acc.DeprecatedRPC cur.DeprecatedRPC

/-- Modelled from the spec: merge step for the nested RetryJoinAzure group
(per-field scalar rule, recursively, as for Ports). -/
def mergeRetryJoinAzure (acc cur : RetryJoinAzure) : RetryJoinAzure where
  TagName := mergeScalar acc.TagName cur.TagName
  TagValue := mergeScalar acc.TagValue cur.TagValue
  SubscriptionID := mergeScalar acc.SubscriptionID cur.SubscriptionID
  TenantID := mergeScalar acc.TenantID cur.TenantID
  ClientID := mergeScalar acc.ClientID cur.ClientID
  SecretAccessKey := mergeScalar acc.SecretAccessKey cur.SecretAccessKey

/-- Modelled from the spec: merge step for the nested RetryJoinEC2 group. -/
def mergeRetryJoinEC2 (acc cur : RetryJoinEC2) : RetryJoinEC2 where
  Region := mergeScalar acc.Region cur.Region
  TagKey := mergeScalar acc.TagKey cur.TagKey
  TagValue := mergeScalar acc.TagValue cur.TagValue
  AccessKeyID := mergeScalar acc.AccessKeyID cur.AccessKeyID
  SecretAccessKey := mergeScalar acc.SecretAccessKey cur.SecretAccessKey

/-- Modelled from the spec: merge step for the nested RetryJoinGCE group. -/
def mergeRetryJoinGCE (acc cur : RetryJoinGCE) : RetryJoinGCE where
  ProjectName := mergeScalar acc.ProjectName cur.ProjectName
  ZonePattern := mergeScalar acc.ZonePattern cur.ZonePattern
  TagValue := mergeScalar acc.TagValue cur.TagValue
  CredentialsFile := mergeScalar acc.CredentialsFile cur.CredentialsFile

/-- Modelled from the spec: the merge engine's binary step on whole
fragments — scalar fields replace-if-present, list fields append, map
fields replace-wholesale-if-non-empty, nested groups recurse per field.
The repository's `Merge` function is not among the provided source files;
this definition follows spec §4.1 and is corroborated below against the
repository's own TestMerge test case (merge_matches_TestMerge). -/
def mergeConfigFile (acc cur : ConfigFile) : ConfigFile where
  AdvertiseAddrLAN := mergeScalar acc.AdvertiseAddrLAN cur.AdvertiseAddrLAN
  AdvertiseAddrWAN := mergeScalar acc.AdvertiseAddrWAN cur.AdvertiseAddrWAN
  BindAddr := mergeScalar acc.BindAddr cur.BindAddr
  Bootstrap := mergeScalar acc.Bootstrap cur.Bootstrap
  BootstrapExpect := mergeScalar acc.BootstrapExpect cur.BootstrapExpect
  CheckUpdateInterval := mergeScalar acc.CheckUpdateInterval cur.CheckUpdateInterval
  ClientAddr := mergeScalar acc.ClientAddr cur.ClientAddr
  DNSDomain := mergeScalar acc.DNSDomain cur.DNSDomain
  DNSRecursors := mergeList acc.DNSRecursors cur.DNSRecursors
  DataDir := mergeScalar acc.DataDir cur.DataDir
  Datacenter := mergeScalar acc.Datacenter cur.Datacenter
  DevMode := mergeScalar acc.DevMode cur.DevMode
  DisableHostNodeID := mergeScalar acc.DisableHostNodeID cur.DisableHostNodeID
  DisableKeyringFile := mergeScalar acc.DisableKeyringFile cur.DisableKeyringFile
  EnableScriptChecks := mergeScalar acc.EnableScriptChecks cur.EnableScriptChecks
  EnableSyslog := mergeScalar acc.EnableSyslog cur.EnableSyslog
  EnableUI := mergeScalar acc.EnableUI cur.EnableUI
  EncryptKey := mergeScalar acc.EncryptKey cur.EncryptKey
  JoinAddrsLAN := mergeList acc.JoinAddrsLAN cur.JoinAddrsLAN
  JoinAddrsWAN := mergeList acc.JoinAddrsWAN cur.JoinAddrsWAN
  LogLevel := mergeScalar acc.LogLevel cur.LogLevel
  NodeID := mergeScalar acc.NodeID cur.NodeID
  NodeMeta := mergeMap acc.NodeMeta cur.NodeMeta
  NodeName := mergeScalar acc.NodeName cur.NodeName
  NonVotingServer := mergeScalar acc.NonVotingServer cur.NonVotingServer
  PidFile := mergeScalar acc.PidFile cur.PidFile
  Ports := mergePorts acc.Ports cur.Ports
  RPCProtocol := mergeScalar acc.RPCProtocol cur.RPCProtocol
  RaftProtocol := mergeScalar acc.RaftProtocol cur.RaftProtocol
  RejoinAfterLeave := mergeScalar acc.RejoinAfterLeave cur.RejoinAfterLeave
  RetryJoinIntervalLAN := mergeScalar acc.RetryJoinIntervalLAN cur.RetryJoinIntervalLAN
  RetryJoinIntervalWAN := mergeScalar acc.RetryJoinIntervalWAN cur.RetryJoinIntervalWAN
  RetryJoinLAN := mergeList acc.RetryJoinLAN cur.RetryJoinLAN
  RetryJoinMaxAttemptsLAN := mergeScalar acc.RetryJoinMaxAttemptsLAN cur.RetryJoinMaxAttemptsLAN
  RetryJoinMaxAttemptsWAN := mergeScalar acc.RetryJoinMaxAttemptsWAN cur.RetryJoinMaxAttemptsWAN
  RetryJoinWAN := mergeList acc.RetryJoinWAN cur.RetryJoinWAN
  SerfBindAddrLAN := mergeScalar acc.SerfBindAddrLAN cur.SerfBindAddrLAN
  SerfBindAddrWAN := mergeScalar acc.SerfBindAddrWAN cur.SerfBindAddrWAN
  ServerMode := mergeScalar acc.ServerMode cur.ServerMode
  UIDir := mergeScalar acc.UIDir cur.UIDir
  DeprecatedRetryJoinAzure := mergeRetryJoinAzure acc.DeprecatedRetryJoinAzure cur.DeprecatedRetryJoinAzure
  DeprecatedRetryJoinEC2 := mergeRetryJoinEC2 acc.DeprecatedRetryJoinEC2 cur.DeprecatedRetryJoinEC2
  DeprecatedRetryJoinGCE := mergeRetryJoinGCE acc.DeprecatedRetryJoinGCE cur.DeprecatedRetryJoinGCE

/-- Modelled from the spec: `Merge(files []ConfigFile) ConfigFile` folds the
ordered fragment sequence left-to-right starting from the zero fragment. -/
def Merge (files : List ConfigFile) : ConfigFile :=
  files.foldl mergeConfigFile emptyConfigFile

/-- Merging a sequence with one more fragment at the end is one merge step
on the merge of the prefix (the fold is left-to-right). -/
theorem Merge_append_single (fs : List ConfigFile) (f : ConfigFile) :
    Merge (fs ++ [f]) = mergeConfigFile (Merge fs) f := by
  simp [Merge, List.foldl_append]

/-- Corroboration of the spec-modelled merge engine against the
repository's own test: this is exactly the "top level fields" case of
TestMerge, fragments and expected result transcribed from the test file. -/
theorem merge_matches_TestMerge :
    Merge
      [ { AdvertiseAddrLAN := some "a" },
        { AdvertiseAddrLAN := some "b" },
        { RaftProtocol := some 1 },
        { RaftProtocol := some 2 },
        { ServerMode := some false },
        { ServerMode := some true },
        { JoinAddrsLAN := ["a"] },
        { JoinAddrsLAN := ["b"] },
        { NodeMeta := [("a", "b")] },
        { NodeMeta := [("c", "d")] },
        { Ports := { DNS := some 1 } },
        { Ports := { DNS := some 2, HTTP := some 3 } } ] =
      { AdvertiseAddrLAN := some "b",
        RaftProtocol := some 2,
        ServerMode := some true,
        JoinAddrsLAN := ["a", "b"],
        NodeMeta := [("c", "d")],
        Ports := { DNS := some 2, HTTP := some 3 } } := by
  decide

/-- maxInt64 is 2^63 - 1, Go's largest int64 value. -/
def maxInt64 : Int := 9223372036854775807

/-- digitVal is the numeric value of a decimal digit character. -/
def digitVal (c : Char) : Int := (c.toNat : Int) - 48

/-- leadingInt mirrors the `leadingInt` helper of Go's `time` package:
consume leading decimal digits into an int64 accumulator; `none` signals
int64 overflow (Go's errLeadingInt). Go's wraparound test `x < 0` after
`x = x*10 + d` is rendered as the equivalent bound check `y > maxInt64`. -/
def leadingInt : Int → List Char → Option (Int × List Char)
  | x, [] => some (x, [])
  | x, c :: cs =>
    if c.isDigit then
      if x > maxInt64 / 10 then none
      else
        let y := x * 10 + digitVal c
        if y > maxInt64 then none
        else leadingInt y cs
    else some (x, c :: cs)

/-- leadingFraction mirrors the `leadingFraction` helper of Go's `time`
package: consume fractional digits, ignoring (but still consuming) digits
past the int64 overflow point; returns value, scale and the remainder.
Go tracks scale in float64, which is exact for every power of ten
reachable here, so scale is an `Int`. -/
def leadingFraction : Int → Int → Bool → List Char → Int × Int × List Char
  | x, scale, _, [] => (x, scale, [])
  | x, scale, overflow, c :: cs =>
    if c.isDigit then
      if overflow then leadingFraction x scale overflow cs
      else if x > maxInt64 / 10 then leadingFraction x scale true cs
      else
        let y := x * 10 + digitVal c
        if y > maxInt64 then leadingFraction x scale true cs
        else leadingFraction y (scale * 10) overflow cs
    else (x, scale, c :: cs)

/-- unitMap mirrors Go time's `unitMap`, in nanoseconds. -/
def unitMap (u : String) : Option Int :=
  match u with
  | "ns" => some 1
  | "us" => some 1000
  | "µs" => some 1000
  | "μs" => some 1000
  | "ms" => some 1000000
  | "s" => some 1000000000
  | "m" => some 60000000000
  | "h" => some 3600000000000
  | _ => none

/-- fracPart consumes the optional `(\.[0-9]*)?` part of one duration
element: value, scale, remainder, and whether any fractional digit was
consumed (Go's `post`). -/
def fracPart : List Char → Int × Int × List Char × Bool
  | '.' :: s2 =>
    let r := leadingFraction 0 1 false s2
    (r.1, r.2.1, r.2.2, r.2.2.length != s2.length)
  | s => (0, 1, s, false)

/-- durLoop is the main loop of Go `time.ParseDuration`, one iteration per
`[0-9]*(\.[0-9]*)?unit` element. The first argument is fuel; every
iteration that recurses has consumed at least one character, so the fuel
`length + 1` supplied by parseDurationE never runs out. The fractional
contribution is computed as exact `f * unit / scale` where Go computes
`int64(float64(f) * (float64(unit) / scale))`; these agree except at
float64-precision extremes. -/
def durLoop : Nat → String → Int → List Char → Except String Int
  | 0, orig, _, _ => Except.error ("time: invalid duration " ++ orig)
  | _ + 1, _, d, [] => Except.ok d
  | n + 1, orig, d, c0 :: s0 =>
    if ¬ (c0 = '.' ∨ c0.isDigit) then Except.error ("time: invalid duration " ++ orig)
    else
      match leadingInt 0 (c0 :: s0) with
      | none => Except.error ("time: invalid duration " ++ orig)
      | some (v, s1) =>
        let pre : Bool := s1.length != (c0 :: s0).length
        let q := fracPart s1
        let f := q.1
        let scale := q.2.1
        let s3 := q.2.2.1
        let post := q.2.2.2
        if pre = false ∧ post = false then Except.error ("time: invalid duration " ++ orig)
        else
          let u := s3.takeWhile (fun c => ¬ (c = '.' ∨ c.isDigit))
          let s4 := s3.dropWhile (fun c => ¬ (c = '.' ∨ c.isDigit))
          if u = [] then Except.error ("time: missing unit in duration " ++ orig)
          else
            match unitMap (String.mk u) with
            | none =>
              Except.error ("time: unknown unit " ++ String.mk u ++ " in duration " ++ orig)
            | some unit =>
              if v > maxInt64 / unit then Except.error ("time: invalid duration " ++ orig)
              else
                let v1 := v * unit
                let v2 := if f > 0 then v1 + f * unit / scale else v1
                if v2 > maxInt64 then Except.error ("time: invalid duration " ++ orig)
                else
                  let d2 := d + v2
                  if d2 > maxInt64 then Except.error ("time: invalid duration " ++ orig)
                  else durLoop n orig d2 s4

/-- parseDurationE mirrors Go `time.ParseDuration` (the decoder used for
the CheckUpdateInterval string and the retry-interval flags): optional
sign, the special case "0", then one or more number-unit elements. -/
def parseDurationE (str : String) : Except String Int :=
  let p :=
    match str.data with
    | '-' :: rest => (true, rest)
    | '+' :: rest => (false, rest)
    | s => (false, s)
  let neg := p.1
  let s1 := p.2
  if s1 = ['0'] then Except.ok 0
  else if s1 = [] then Except.error ("time: invalid duration " ++ str)
  else
    match durLoop (s1.length + 1) str 0 s1 with
    | Except.error e => Except.error e
    | Except.ok d => Except.ok (if neg then -d else d)

/-- parseGoInt mirrors Go `strconv.Atoi` on a 64-bit platform (ParseInt in
base 10 with int64 bounds): optional sign, at least one digit, all digits,
result within the int64 range; `none` on malformation or overflow. -/
def parseGoInt (s : String) : Option Int :=
  let q :=
    match s.data with
    | '-' :: rest => (true, rest)
    | '+' :: rest => (false, rest)
    | l => (false, l)
  let neg := q.1
  let ds := q.2
  if ds = [] ∨ ¬ ds.all Char.isDigit then none
  else
    let n : Int := ds.foldl (fun a c => a * 10 + digitVal c) 0
    if neg then
      if n ≤ maxInt64 + 1 then some (-n) else none
    else
      if n ≤ maxInt64 then some n else none

/-- parseGoBool mirrors Go `strconv.ParseBool`. -/
def parseGoBool (s : String) : Option Bool :=
  match s with
  | "1" | "t" | "T" | "true" | "TRUE" | "True" => some true
  | "0" | "f" | "F" | "false" | "FALSE" | "False" => some false
  | _ => none

/-- Config mirrors `type Config struct` in config.go: the fully resolved
runtime configuration. -/
structure Config where
  Bootstrap : Bool := false
  CheckUpdateInterval : Int := 0
  Datacenter : String := ""
  BindAddrs : List String := []
  JoinAddrsLAN : List String := []
  DNSPort : Int := 0
  DNSAddrsTCP : List String := []
  DNSAddrsUDP : List String := []
  NodeMeta : List (String × String) := []
deriving DecidableEq

/-- zeroConfig is the Go zero value `Config{}`. -/
def zeroConfig : Config := {}

/-- boolVal mirrors the closure in NewConfig: zero under a pending error
or a nil pointer, the pointee otherwise. -/
def boolVal (err : Option String) (b : Option Bool) : Bool :=
  if err.isSome then false else b.getD false

/-- durationVal mirrors the closure in NewConfig: under a pending error or
a nil pointer it returns 0 and leaves the error variable unchanged;
otherwise the parse result and its error are assigned. -/
def durationVal (err : Option String) (s : Option String) : Int × Option String :=
  if err.isSome ∨ s = none then (0, err)
  else
    match parseDurationE (s.getD "") with
    | Except.ok d => (d, none)
    | Except.error e => (0, some e)

/-- intVal mirrors the closure in NewConfig. -/
def intVal (err : Option String) (n : Option Int) : Int :=
  if err.isSome then 0 else n.getD 0

/-- stringVal mirrors the closure in NewConfig. -/
def stringVal (err : Option String) (s : Option String) : String :=
  if err.isSome then "" else s.getD ""

/-- addrVal mirrors the closure in NewConfig: an absent or empty address
resolves to the wildcard address. -/
def addrVal (err : Option String) (s : Option String) : String :=
  let addr := stringVal err s
  if addr = "" then "0.0.0.0" else addr

/-- joinHostPortString mirrors `net.JoinHostPort`: a host containing a
colon is bracketed as a literal IPv6 address, otherwise the two parts are
joined with a colon. -/
def joinHostPortString (host port : String) : String :=
  if host.data.contains ':' then "[" ++ host ++ "]:" ++ port else host ++ ":" ++ port

/-- joinHostPort mirrors the closure in NewConfig: a wildcard host is
rendered as the empty host component, the port comes from strconv.Itoa. -/
def joinHostPort (host : String) (port : Int) : String :=
  let h := if host = "0.0.0.0" then "" else host
  joinHostPortString h (toString port)

/-- NewConfig mirrors `func NewConfig(f ConfigFile) (c Config, err error)`
in config.go, including its named return values: an error set by a failed
duration parse zero-guards the later helper calls, but the partially built
`c` (with JoinAddrsLAN and NodeMeta copied unconditionally and Bootstrap
assigned before the duration parse) is still returned with the error. The
"no bind address" validation returns the zero Config explicitly. -/
def NewConfig (f : ConfigFile) : Config × Option String :=
  let err0 : Option String := none
  let cBootstrap := boolVal err0 f.Bootstrap
  let dr := durationVal err0 f.CheckUpdateInterval
  let cCheckUpdateInterval := dr.1
  let err1 := dr.2
  let cDatacenter := stringVal err1 f.Datacenter
  if f.BindAddr = none ∧ f.Ports ≠ emptyPorts then
    (zeroConfig, some "no bind address specified")
  else
    let cBindAddrs : List String :=
      if f.BindAddr.isSome then [addrVal err1 f.BindAddr] else []
    let cDNSPort : Int := if f.Ports.DNS.isSome then intVal err1 f.Ports.DNS else 0
    let cDNSAddrsTCP : List String :=
      if f.Ports.DNS.isSome then cBindAddrs.map (fun a => joinHostPort a cDNSPort) else []
    let cDNSAddrsUDP : List String :=
      if f.Ports.DNS.isSome then cBindAddrs.map (fun a => joinHostPort a cDNSPort) else []
    ({ Bootstrap := cBootstrap,
       CheckUpdateInterval := cCheckUpdateInterval,
       Datacenter := cDatacenter,
       BindAddrs := cBindAddrs,
       JoinAddrsLAN := f.JoinAddrsLAN,
       DNSPort := cDNSPort,
       DNSAddrsTCP := cDNSAddrsTCP,
       DNSAddrsUDP := cDNSAddrsUDP,
       NodeMeta := f.NodeMeta }, err1)

example : parseDurationE "5m" = Except.ok 300000000000 := by rfl
example : parseDurationE "1.5h" = Except.ok 5400000000000 := by rfl
example : parseDurationE "0" = Except.ok 0 := by rfl
example : parseDurationE "-1m" = Except.ok (-60000000000) := by rfl
example : (parseDurationE "x").isOk = false := by decide
example : (parseDurationE "").isOk = false := by decide
example : (parseDurationE "5").isOk = false := by decide
example : (parseDurationE "300ms").isOk = true := by decide
example : parseGoInt "123" = some 123 := by decide
example : parseGoInt "-7" = some (-7) := by decide
example : parseGoInt "x" = none := by decide
example : parseGoInt "" = none := by decide
example :
    NewConfig { BindAddr := some "0.0.0.0", Ports := { DNS := some 123 } } =
      ({ BindAddrs := ["0.0.0.0"], DNSPort := 123,
         DNSAddrsTCP := [":123"], DNSAddrsUDP := [":123"] }, none) := by decide
example :
    NewConfig { Ports := { DNS := some 1 } } = (zeroConfig, some "no bind address specified") := by
  decide

/-- Flags mirrors `type Flags struct` in config.go: the fragment produced
by command-line parsing plus the side list of config file/dir paths and
the deprecated top-level flag targets. -/
structure Flags where
  File : ConfigFile := {}
  ConfigFiles : List String := []
  DeprecatedDatacenter : Option String := none
  DeprecatedAtlasInfrastructure : Option String := none
  DeprecatedAtlasJoin : Option Bool := none
  DeprecatedAtlasToken : Option String := none
  DeprecatedAtlasEndpoint : Option String := none
deriving DecidableEq

/-- emptyFlags is the Go zero value `Flags{}`. -/
def emptyFlags : Flags := {}

/-- FKind is the closed set of flag value kinds registered by AddFlags
(the `switch x := p.(type)` dispatch). -/
inductive FKind where
  | fbool
  | fint
  | fduration
  | fstring
  | fslice
  | fmap
deriving DecidableEq

/-- splitFirstColon splits a character list at the first colon, `none`
when no colon is present (strings.SplitN(s, ":", 2) with length check). -/
def splitFirstColon : List Char → Option (List Char × List Char)
  | [] => none
  | c :: rest =>
    if c = ':' then some ([], rest)
    else
      match splitFirstColon rest with
      | none => none
      | some p => some (c :: p.1, p.2)

/-- mapInsert is keyed insert/overwrite into the association-list model of
a Go string map (`m[k] = v`); a key occurs at most once. -/
def mapInsert (m : List (String × String)) (k v : String) : List (String × String) :=
  match m with
  | [] => [(k, v)]
  | e :: rest => if e.1 = k then (k, v) :: rest else e :: mapInsert rest k v

/-- flagKind is the registry established by AddFlags in config.go: each
flag name mapped to the value kind of its registration. The parse loop
needs the kind before consuming a value (bool flags take no separate
argument). -/
def flagKind (name : String) : Option FKind :=
  match name with
  | "bootstrap" | "dev" | "disable-host-node-id" | "disable-keyring-file"
  | "enable-script-checks" | "non-voting-server" | "rejoin" | "server"
  | "syslog" | "ui" | "atlas-join" => some FKind.fbool
  | "bootstrap-expect" | "dns-port" | "http-port" | "protocol" | "raft-protocol"
  | "retry-max" | "retry-max-wan" => some FKind.fint
  | "retry-interval" | "retry-interval-wan" => some FKind.fduration
  | "advertise" | "advertise-wan" | "bind" | "client" | "data-dir" | "datacenter"
  | "domain" | "encrypt" | "log-level" | "node" | "node-id" | "pid-file"
  | "serf-lan-bind" | "serf-wan-bind" | "ui-dir" | "atlas" | "atlas-endpoint"
  | "atlas-token" | "dc"
  | "retry-join-azure-tag-name" | "retry-join-azure-tag-value"
  | "retry-join-ec2-region" | "retry-join-ec2-tag-key" | "retry-join-ec2-tag-value"
  | "retry-join-gce-credentials-file" | "retry-join-gce-project-name"
  | "retry-join-gce-tag-value" | "retry-join-gce-zone-pattern" => some FKind.fstring
  | "config-dir" | "config-file" | "join" | "join-wan" | "recursor"
  | "retry-join" | "retry-join-wan" => some FKind.fslice
  | "node-meta" => some FKind.fmap
  | _ => none

/-- setBoolFlag parses a boolean flag argument with strconv.ParseBool and
stores it through the given update. Modelled from the spec: the
newBoolPtrValue helper's Set method is not among the provided source
files; the test file pins down that a bare boolean flag parses (so the
value implements IsBoolFlag) and that explicit true/false literals are
accepted. -/
def setBoolFlag (f : Flags) (value : String) (upd : Flags → Bool → Flags) :
    Except String Flags :=
  match parseGoBool value with
  | none => Except.error "invalid syntax"
  | some b => Except.ok (upd f b)

/-- setIntFlag parses an int flag argument with strconv.Atoi. Modelled
from the spec: the newIntPtrValue helper is not among the provided source
files; the spec requires unparsable int values to fail the parse. -/
def setIntFlag (f : Flags) (value : String) (upd : Flags → Int → Flags) :
    Except String Flags :=
  match parseGoInt value with
  | none => Except.error "invalid syntax"
  | some n => Except.ok (upd f n)

/-- setDurationFlag parses a duration flag argument with
time.ParseDuration. Modelled from the spec: the newDurationPtrValue helper
is not among the provided source files; the spec requires unparsable
duration values to fail the parse. -/
def setDurationFlag (f : Flags) (value : String) (upd : Flags → Int → Flags) :
    Except String Flags :=
  match parseDurationE value with
  | Except.error e => Except.error e
  | Except.ok d => Except.ok (upd f d)

/-- setMapFlag splits a map flag argument on the first colon into key and
value and inserts by key. Modelled from the spec: the newStringMapValue
helper is not among the provided source files; the spec says splitting
fails with a parse error if no colon is present, and successive
occurrences insert/overwrite by key into one map local to the parse. -/
def setMapFlag (f : Flags) (value : String)
    (upd : Flags → String → String → Flags) : Except String Flags :=
  match splitFirstColon value.data with
  | none => Except.error ("missing colon in " ++ value)
  | some p => Except.ok (upd f (String.mk p.1) (String.mk p.2))

/-- setFlag dispatches one parsed flag occurrence to its field, following
the AddFlags registration list in config.go (flag name to field location
and accumulation policy: scalars replace, lists append, maps insert by
key). String and slice stores cannot fail; bool/int/duration/map stores
parse their argument first. -/
def setFlag (f : Flags) (name value : String) : Except String Flags :=
  match name with
  | "advertise" =>
    Except.ok { f with File := { f.File with AdvertiseAddrLAN := some value } }
  | "advertise-wan" =>
    Except.ok { f with File := { f.File with AdvertiseAddrWAN := some value } }
  | "bind" => Except.ok { f with File := { f.File with BindAddr := some value } }
  | "bootstrap" =>
    setBoolFlag f value fun f b => { f with File := { f.File with Bootstrap := some b } }
  | "bootstrap-expect" =>
    setIntFlag f value fun f n => { f with File := { f.File with BootstrapExpect := some n } }
  | "client" => Except.ok { f with File := { f.File with ClientAddr := some value } }
  | "config-dir" => Except.ok { f with ConfigFiles := f.ConfigFiles ++ [value] }
  | "config-file" => Except.ok { f with ConfigFiles := f.ConfigFiles ++ [value] }
  | "data-dir" => Except.ok { f with File := { f.File with DataDir := some value } }
  | "datacenter" => Except.ok { f with File := { f.File with Datacenter := some value } }
  | "dev" =>
    setBoolFlag f value fun f b => { f with File := { f.File with DevMode := some b } }
  | "disable-host-node-id" =>
    setBoolFlag f value fun f b => { f with File := { f.File with DisableHostNodeID := some b } }
  | "disable-keyring-file" =>
    setBoolFlag f value fun f b => { f with File := { f.File with DisableKeyringFile := some b } }
  | "dns-port" =>
    setIntFlag f value fun f n =>
      { f with File := { f.File with Ports := { f.File.Ports with DNS := some n } } }
  | "domain" => Except.ok { f with File := { f.File with DNSDomain := some value } }
  | "enable-script-checks" =>
    setBoolFlag f value fun f b => { f with File := { f.File with EnableScriptChecks := some b } }
  | "encrypt" => Except.ok { f with File := { f.File with EncryptKey := some value } }
  | "http-port" =>
    setIntFlag f value fun f n =>
      { f with File := { f.File with Ports := { f.File.Ports with HTTP := some n } } }
  | "join" =>
    Except.ok { f with File := { f.File with JoinAddrsLAN := f.File.JoinAddrsLAN ++ [value] } }
  | "join-wan" =>
    Except.ok { f with File := { f.File with JoinAddrsWAN := f.File.JoinAddrsWAN ++ [value] } }
  | "log-level" => Except.ok { f with File := { f.File with LogLevel := some value } }
  | "node" => Except.ok { f with File := { f.File with NodeName := some value } }
  | "node-id" => Except.ok { f with File := { f.File with NodeID := some value } }
  | "node-meta" =>
    setMapFlag f value fun f k v =>
      { f with File := { f.File with NodeMeta := mapInsert f.File.NodeMeta k v } }
  | "non-voting-server" =>
    setBoolFlag f value fun f b => { f with File := { f.File with NonVotingServer := some b } }
  | "pid-file" => Except.ok { f with File := { f.File with PidFile := some value } }
  | "protocol" =>
    setIntFlag f value fun f n => { f with File := { f.File with RPCProtocol := some n } }
  | "raft-protocol" =>
    setIntFlag f value fun f n => { f with File := { f.File with RaftProtocol := some n } }
  | "recursor" =>
    Except.ok { f with File := { f.File with DNSRecursors := f.File.DNSRecursors ++ [value] } }
  | "rejoin" =>
    setBoolFlag f value fun f b => { f with File := { f.File with RejoinAfterLeave := some b } }
  | "retry-interval" =>
    setDurationFlag f value fun f d =>
      { f with File := { f.File with RetryJoinIntervalLAN := some d } }
  | "retry-interval-wan" =>
    setDurationFlag f value fun f d =>
      { f with File := { f.File with RetryJoinIntervalWAN := some d } }
  | "retry-join" =>
    Except.ok { f with File := { f.File with RetryJoinLAN := f.File.RetryJoinLAN ++ [value] } }
  | "retry-join-wan" =>
    Except.ok { f with File := { f.File with RetryJoinWAN := f.File.RetryJoinWAN ++ [value] } }
  | "retry-max" =>
    setIntFlag f value fun f n =>
      { f with File := { f.File with RetryJoinMaxAttemptsLAN := some n } }
  | "retry-max-wan" =>
    setIntFlag f value fun f n =>
      { f with File := { f.File with RetryJoinMaxAttemptsWAN := some n } }
  | "serf-lan-bind" =>
    Except.ok { f with File := { f.File with SerfBindAddrLAN := some value } }
  | "serf-wan-bind" =>
    Except.ok { f with File := { f.File with SerfBindAddrWAN := some value } }
  | "server" =>
    setBoolFlag f value fun f b => { f with File := { f.File with ServerMode := some b } }
  | "syslog" =>
    setBoolFlag f value fun f b => { f with File := { f.File with EnableSyslog := some b } }
  | "ui" =>
    setBoolFlag f value fun f b => { f with File := { f.File with EnableUI := some b } }
  | "ui-dir" => Except.ok { f with File := { f.File with UIDir := some value } }
  | "atlas" => Except.ok { f with DeprecatedAtlasInfrastructure := some value }
  | "atlas-endpoint" => Except.ok { f with DeprecatedAtlasEndpoint := some value }
  | "atlas-join" =>
    setBoolFlag f value fun f b => { f with DeprecatedAtlasJoin := some b }
  | "atlas-token" => Except.ok { f with DeprecatedAtlasToken := some value }
  | "dc" => Except.ok { f with DeprecatedDatacenter := some value }
  | "retry-join-azure-tag-name" =>
    Except.ok
      { f with File := { f.File with DeprecatedRetryJoinAzure :=
          { f.File.DeprecatedRetryJoinAzure with TagName := some value } } }
  | "retry-join-azure-tag-value" =>
    Except.ok
      { f with File := { f.File with DeprecatedRetryJoinAzure :=
          { f.File.DeprecatedRetryJoinAzure with TagValue := some value } } }
  | "retry-join-ec2-region" =>
    Except.ok
      { f with File := { f.File with DeprecatedRetryJoinEC2 :=
          { f.File.DeprecatedRetryJoinEC2 with Region := some value } } }
  | "retry-join-ec2-tag-key" =>
    Except.ok
      { f with File := { f.File with DeprecatedRetryJoinEC2 :=
          { f.File.DeprecatedRetryJoinEC2 with TagKey := some value } } }
  | "retry-join-ec2-tag-value" =>
    Except.ok
      { f with File := { f.File with DeprecatedRetryJoinEC2 :=
          { f.File.DeprecatedRetryJoinEC2 with TagValue := some value } } }
  | "retry-join-gce-credentials-file" =>
    Except.ok
      { f with File := { f.File with DeprecatedRetryJoinGCE :=
          { f.File.DeprecatedRetryJoinGCE with CredentialsFile := some value } } }
  | "retry-join-gce-project-name" =>
    Except.ok
      { f with File := { f.File with DeprecatedRetryJoinGCE :=
          { f.File.DeprecatedRetryJoinGCE with ProjectName := some value } } }
  | "retry-join-gce-tag-value" =>
    Except.ok
      { f with File := { f.File with DeprecatedRetryJoinGCE :=
          { f.File.DeprecatedRetryJoinGCE with TagValue := some value } } }
  | "retry-join-gce-zone-pattern" =>
    Except.ok
      { f with File := { f.File with DeprecatedRetryJoinGCE :=
          { f.File.DeprecatedRetryJoinGCE with ZonePattern := some value } } }
  | _ => Except.error ("no such flag -" ++ name)

/-- splitEqAux finds the first '=' in a character list, returning the part
before it and, when found, the part after it. -/
def splitEqAux : List Char → List Char × Option (List Char)
  | [] => ([], none)
  | c :: cs =>
    if c = '=' then ([], some cs)
    else
      let p := splitEqAux cs
      (c :: p.1, p.2)

/-- splitEq splits a flag name token at the first '=' into name and
optional value; like Go's flag package the search starts at index 1. -/
def splitEq : List Char → List Char × Option (List Char)
  | [] => ([], none)
  | c :: cs =>
    let p := splitEqAux cs
    (c :: p.1, p.2)

/-- StepResult is the outcome of processing one flag occurrence, the
Lean rendering of Go parseOne's `(bool, error)` return: stop (no more
flags; remaining arguments are unconsumed positionals), continue with the
updated Flags and remaining arguments, or fail with an error. -/
inductive StepResult where
  | stop
  | cont (f : Flags) (rest : List String)
  | fail (msg : String)

/-- TokenView is the result of parseOne's token analysis on one raw
argument: stop (not a flag token, or the "--" terminator), bad syntax, or
a flag occurrence with its name and optional "=value" part. -/
inductive TokenView where
  | stop
  | bad
  | flagTok (name : String) (value : Option String)
deriving DecidableEq

/-- tokenView performs the token-destructuring steps of Go parseOne on
one argument: an argument shorter than two characters or not starting
with '-' stops parsing; "--" also stops; one or two leading minuses are
accepted; a name starting with '-' or '=' is bad syntax; otherwise the
name is split at the first '=' from index 1 into name and optional
value. -/
def tokenView (s : String) : TokenView :=
  match s.data with
  | '-' :: c :: cs =>
    if c = '-' ∧ cs = [] then TokenView.stop
    else
      let name0 := if c = '-' then cs else c :: cs
      if name0 = [] ∨ name0.head? = some '-' ∨ name0.head? = some '=' then TokenView.bad
      else
        let p := splitEq name0
        TokenView.flagTok (String.mk p.1) (p.2.map String.mk)
  | _ => TokenView.stop

/-- parseOne mirrors `parseOne` of Go's `flag` package on one argument:
analyse the token; fail on bad syntax; fail on an unknown name ("help"
and "h" are special-cased); a boolean flag never consumes the following
argument (a bare occurrence sets "true"); every other kind consumes the
following argument when no "=value" part is present, failing when there
is none; a malformed value fails with a descriptive message. -/
def parseOne (f : Flags) (s : String) (rest : List String) : StepResult :=
  match tokenView s with
  | TokenView.stop => StepResult.stop
  | TokenView.bad => StepResult.fail ("bad flag syntax: " ++ s)
  | TokenView.flagTok name value =>
    match flagKind name with
    | none =>
      if name = "help" ∨ name = "h" then StepResult.fail "flag: help requested"
      else StepResult.fail ("flag provided but not defined: -" ++ name)
    | some k =>
      if k = FKind.fbool then
        match value with
        | some v =>
          match setFlag f name v with
          | Except.ok f2 => StepResult.cont f2 rest
          | Except.error e =>
            StepResult.fail ("invalid boolean value " ++ v ++ " for -" ++ name ++ ": " ++ e)
        | none =>
          match setFlag f name "true" with
          | Except.ok f2 => StepResult.cont f2 rest
          | Except.error e => StepResult.fail e
      else
        match value with
        | some v =>
          match setFlag f name v with
          | Except.ok f2 => StepResult.cont f2 rest
          | Except.error e =>
            StepResult.fail ("invalid value " ++ v ++ " for flag -" ++ name ++ ": " ++ e)
        | none =>
          match rest with
          | [] => StepResult.fail ("flag needs an argument: -" ++ name)
          | v :: rest2 =>
            match setFlag f name v with
            | Except.ok f2 => StepResult.cont f2 rest2
            | Except.error e =>
              StepResult.fail ("invalid value " ++ v ++ " for flag -" ++ name ++ ": " ++ e)

/-- parseLoop mirrors the loop in Go `flag.FlagSet.Parse`: run parseOne
until it stops or fails. The first parameter is fuel; every recursive
step consumes at least one argument, so `length + 1` never runs out. -/
def parseLoop : Nat → Flags → List String → Flags × Option String
  | 0, f, _ => (f, none)
  | _ + 1, f, [] => (f, none)
  | n + 1, f, s :: rest =>
    match parseOne f s rest with
    | StepResult.stop => (f, none)
    | StepResult.fail msg => (f, some msg)
    | StepResult.cont f2 rest2 => parseLoop n f2 rest2

/-- ParseFlags mirrors `func ParseFlags(args []string) (Flags, error)` in
config.go: parse with ContinueOnError semantics; on any parse error the
zero Flags value is returned with the error; otherwise the accumulated
Flags (arguments from the first positional argument on were ignored). -/
def ParseFlags (args : List String) : Flags × Option String :=
  let r := parseLoop (args.length + 1) emptyFlags args
  match r.2 with
  | some e => (emptyFlags, some e)
  | none => (r.1, none)

example : ParseFlags [] = (emptyFlags, none) := by decide
example :
    ParseFlags ["-bind", "a"] =
      ({ File := { BindAddr := some "a" } }, none) := by decide
example :
    ParseFlags ["-bootstrap"] =
      ({ File := { Bootstrap := some true } }, none) := by decide
example :
    ParseFlags ["-bootstrap=true"] =
      ({ File := { Bootstrap := some true } }, none) := by decide
example :
    ParseFlags ["-bootstrap=false"] =
      ({ File := { Bootstrap := some false } }, none) := by decide
example :
    ParseFlags ["-bootstrap", "true"] =
      ({ File := { Bootstrap := some true } }, none) := by decide
example :
    ParseFlags ["-config-file", "a", "-config-dir", "b", "-config-file", "c",
        "-config-dir", "d"] =
      ({ ConfigFiles := ["a", "b", "c", "d"] }, none) := by decide
example :
    ParseFlags ["-datacenter", "a"] =
      ({ File := { Datacenter := some "a" } }, none) := by decide
example :
    ParseFlags ["-dns-port", "1"] =
      ({ File := { Ports := { DNS := some 1 } } }, none) := by decide
example :
    ParseFlags ["-join", "a", "-join", "b"] =
      ({ File := { JoinAddrsLAN := ["a", "b"] } }, none) := by decide
example :
    ParseFlags ["-node-meta", "a:b", "-node-meta", "c:d"] =
      ({ File := { NodeMeta := [("a", "b"), ("c", "d")] } }, none) := by decide
example :
    ParseFlags ["-bootstrap", "false"] =
      ({ File := { Bootstrap := some true } }, none) := by decide
example : ParseFlags ["x"] = (emptyFlags, none) := by decide
example : (ParseFlags ["-no-such-flag"]).2.isSome = true := by decide
example : (ParseFlags ["-dns-port", "x"]).2.isSome = true := by decide
example : (ParseFlags ["-node-meta", "ab"]).2.isSome = true := by decide

/-- C4: scalar merge is last-writer-wins: folding fragments left-to-right,
for every scalar (Optional) field — including the nested Ports and
deprecated retry-join groups — a Present value in the appended fragment
replaces the accumulated value and an Absent value leaves it unchanged;
in particular for two fragments the merged Bootstrap is the second
fragment's when present, the first fragment's otherwise. -/
theorem merge_scalar_last_writer_wins (fs : List ConfigFile) (f : ConfigFile) :
    ((Merge (fs ++ [f])).AdvertiseAddrLAN =
        (if (f.AdvertiseAddrLAN).isSome then f.AdvertiseAddrLAN else (Merge fs).AdvertiseAddrLAN)) ∧
    ((Merge (fs ++ [f])).AdvertiseAddrWAN =
        (if (f.AdvertiseAddrWAN).isSome then f.AdvertiseAddrWAN else (Merge fs).AdvertiseAddrWAN)) ∧
    ((Merge (fs ++ [f])).BindAddr =
        (if (f.BindAddr).isSome then f.BindAddr else (Merge fs).BindAddr)) ∧
    ((Merge (fs ++ [f])).Bootstrap =
        (if (f.Bootstrap).isSome then f.Bootstrap else (Merge fs).Bootstrap)) ∧
    ((Merge (fs ++ [f])).BootstrapExpect =
        (if (f.BootstrapExpect).isSome then f.BootstrapExpect else (Merge fs).BootstrapExpect)) ∧
    ((Merge (fs ++ [f])).CheckUpdateInterval =
        (if (f.CheckUpdateInterval).isSome then f.CheckUpdateInterval else (Merge fs).CheckUpdateInterval)) ∧
    ((Merge (fs ++ [f])).ClientAddr =
        (if (f.ClientAddr).isSome then f.ClientAddr else (Merge fs).ClientAddr)) ∧
    ((Merge (fs ++ [f])).DNSDomain =
        (if (f.DNSDomain).isSome then f.DNSDomain else (Merge fs).DNSDomain)) ∧
    ((Merge (fs ++ [f])).DataDir =
        (if (f.DataDir).isSome then f.DataDir else (Merge fs).DataDir)) ∧
    ((Merge (fs ++ [f])).Datacenter =
        (if (f.Datacenter).isSome then f.Datacenter else (Merge fs).Datacenter)) ∧
    ((Merge (fs ++ [f])).DevMode =
        (if (f.DevMode).isSome then f.DevMode else (Merge fs).DevMode)) ∧
    ((Merge (fs ++ [f])).DisableHostNodeID =
        (if (f.DisableHostNodeID).isSome then f.DisableHostNodeID else (Merge fs).DisableHostNodeID)) ∧
    ((Merge (fs ++ [f])).DisableKeyringFile =
        (if (f.DisableKeyringFile).isSome then f.DisableKeyringFile else (Merge fs).DisableKeyringFile)) ∧
    ((Merge (fs ++ [f])).EnableScriptChecks =
        (if (f.EnableScriptChecks).isSome then f.EnableScriptChecks else (Merge fs).EnableScriptChecks)) ∧
    ((Merge (fs ++ [f])).EnableSyslog =
        (if (f.EnableSyslog).isSome then f.EnableSyslog else (Merge fs).EnableSyslog)) ∧
    ((Merge (fs ++ [f])).EnableUI =
        (if (f.EnableUI).isSome then f.EnableUI else (Merge fs).EnableUI)) ∧
    ((Merge (fs ++ [f])).EncryptKey =
        (if (f.EncryptKey).isSome then f.EncryptKey else (Merge fs).EncryptKey)) ∧
    ((Merge (fs ++ [f])).LogLevel =
        (if (f.LogLevel).isSome then f.LogLevel else (Merge fs).LogLevel)) ∧
    ((Merge (fs ++ [f])).NodeID =
        (if (f.NodeID).isSome then f.NodeID else (Merge fs).NodeID)) ∧
    ((Merge (fs ++ [f])).NodeName =
        (if (f.NodeName).isSome then f.NodeName else (Merge fs).NodeName)) ∧
    ((Merge (fs ++ [f])).NonVotingServer =
        (if (f.NonVotingServer).isSome then f.NonVotingServer else (Merge fs).NonVotingServer)) ∧
    ((Merge (fs ++ [f])).PidFile =
        (if (f.PidFile).isSome then f.PidFile else (Merge fs).PidFile)) ∧
    ((Merge (fs ++ [f])).RPCProtocol =
        (if (f.RPCProtocol).isSome then f.RPCProtocol else (Merge fs).RPCProtocol)) ∧
    ((Merge (fs ++ [f])).RaftProtocol =
        (if (f.RaftProtocol).isSome then f.RaftProtocol else (Merge fs).RaftProtocol)) ∧
    ((Merge (fs ++ [f])).RejoinAfterLeave =
        (if (f.RejoinAfterLeave).isSome then f.RejoinAfterLeave else (Merge fs).RejoinAfterLeave)) ∧
    ((Merge (fs ++ [f])).RetryJoinIntervalLAN =
        (if (f.RetryJoinIntervalLAN).isSome then f.RetryJoinIntervalLAN else (Merge fs).RetryJoinIntervalLAN)) ∧
    ((Merge (fs ++ [f])).RetryJoinIntervalWAN =
        (if (f.RetryJoinIntervalWAN).isSome then f.RetryJoinIntervalWAN else (Merge fs).RetryJoinIntervalWAN)) ∧
    ((Merge (fs ++ [f])).RetryJoinMaxAttemptsLAN =
        (if (f.RetryJoinMaxAttemptsLAN).isSome then f.RetryJoinMaxAttemptsLAN else (Merge fs).RetryJoinMaxAttemptsLAN)) ∧
    ((Merge (fs ++ [f])).RetryJoinMaxAttemptsWAN =
        (if (f.RetryJoinMaxAttemptsWAN).isSome then f.RetryJoinMaxAttemptsWAN else (Merge fs).RetryJoinMaxAttemptsWAN)) ∧
    ((Merge (fs ++ [f])).SerfBindAddrLAN =
        (if (f.SerfBindAddrLAN).isSome then f.SerfBindAddrLAN else (Merge fs).SerfBindAddrLAN)) ∧
    ((Merge (fs ++ [f])).SerfBindAddrWAN =
        (if (f.SerfBindAddrWAN).isSome then f.SerfBindAddrWAN else (Merge fs).SerfBindAddrWAN)) ∧
    ((Merge (fs ++ [f])).ServerMode =
        (if (f.ServerMode).isSome then f.ServerMode else (Merge fs).ServerMode)) ∧
    ((Merge (fs ++ [f])).UIDir =
        (if (f.UIDir).isSome then f.UIDir else (Merge fs).UIDir)) ∧
    ((Merge (fs ++ [f])).Ports.DNS =
        (if (f.Ports.DNS).isSome then f.Ports.DNS else (Merge fs).Ports.DNS)) ∧
    ((Merge (fs ++ [f])).Ports.HTTP =
        (if (f.Ports.HTTP).isSome then f.Ports.HTTP else (Merge fs).Ports.HTTP)) ∧
    ((Merge (fs ++ [f])).Ports.HTTPS =
        (if (f.Ports.HTTPS).isSome then f.Ports.HTTPS else (Merge fs).Ports.HTTPS)) ∧
    ((Merge (fs ++ [f])).Ports.SerfLAN =
        (if (f.Ports.SerfLAN).isSome then f.Ports.SerfLAN else (Merge fs).Ports.SerfLAN)) ∧
    ((Merge (fs ++ [f])).Ports.SerfWAN =
        (if (f.Ports.SerfWAN).isSome then f.Ports.SerfWAN else (Merge fs).Ports.SerfWAN)) ∧
    ((Merge (fs ++ [f])).Ports.Server =
        (if (f.Ports.Server).isSome then f.Ports.Server else (Merge fs).Ports.Server)) ∧
    ((Merge (fs ++ [f])).Ports.DeprecatedRPC =
        (if (f.Ports.DeprecatedRPC).isSome then f.Ports.DeprecatedRPC else (Merge fs).Ports.DeprecatedRPC)) ∧
    ((Merge (fs ++ [f])).DeprecatedRetryJoinAzure.TagName =
        (if (f.DeprecatedRetryJoinAzure.TagName).isSome then f.DeprecatedRetryJoinAzure.TagName else (Merge fs).DeprecatedRetryJoinAzure.TagName)) ∧
    ((Merge (fs ++ [f])).DeprecatedRetryJoinAzure.TagValue =
        (if (f.DeprecatedRetryJoinAzure.TagValue).isSome then f.DeprecatedRetryJoinAzure.TagValue else (Merge fs).DeprecatedRetryJoinAzure.TagValue)) ∧
    ((Merge (fs ++ [f])).DeprecatedRetryJoinAzure.SubscriptionID =
        (if (f.DeprecatedRetryJoinAzure.SubscriptionID).isSome then f.DeprecatedRetryJoinAzure.SubscriptionID else (Merge fs).DeprecatedRetryJoinAzure.SubscriptionID)) ∧
    ((Merge (fs ++ [f])).DeprecatedRetryJoinAzure.TenantID =
        (if (f.DeprecatedRetryJoinAzure.TenantID).isSome then f.DeprecatedRetryJoinAzure.TenantID else (Merge fs).DeprecatedRetryJoinAzure.TenantID)) ∧
    ((Merge (fs ++ [f])).DeprecatedRetryJoinAzure.ClientID =
        (if (f.DeprecatedRetryJoinAzure.ClientID).isSome then f.DeprecatedRetryJoinAzure.ClientID else (Merge fs).DeprecatedRetryJoinAzure.ClientID)) ∧
    ((Merge (fs ++ [f])).DeprecatedRetryJoinAzure.SecretAccessKey =
        (if (f.DeprecatedRetryJoinAzure.SecretAccessKey).isSome then f.DeprecatedRetryJoinAzure.SecretAccessKey else (Merge fs).DeprecatedRetryJoinAzure.SecretAccessKey)) ∧
    ((Merge (fs ++ [f])).DeprecatedRetryJoinEC2.Region =
        (if (f.DeprecatedRetryJoinEC2.Region).isSome then f.DeprecatedRetryJoinEC2.Region else (Merge fs).DeprecatedRetryJoinEC2.Region)) ∧
    ((Merge (fs ++ [f])).DeprecatedRetryJoinEC2.TagKey =
        (if (f.DeprecatedRetryJoinEC2.TagKey).isSome then f.DeprecatedRetryJoinEC2.TagKey else (Merge fs).DeprecatedRetryJoinEC2.TagKey)) ∧
    ((Merge (fs ++ [f])).DeprecatedRetryJoinEC2.TagValue =
        (if (f.DeprecatedRetryJoinEC2.TagValue).isSome then f.DeprecatedRetryJoinEC2.TagValue else (Merge fs).DeprecatedRetryJoinEC2.TagValue)) ∧
    ((Merge (fs ++ [f])).DeprecatedRetryJoinEC2.AccessKeyID =
        (if (f.DeprecatedRetryJoinEC2.AccessKeyID).isSome then f.DeprecatedRetryJoinEC2.AccessKeyID else (Merge fs).DeprecatedRetryJoinEC2.AccessKeyID)) ∧
    ((Merge (fs ++ [f])).DeprecatedRetryJoinEC2.SecretAccessKey =
        (if (f.DeprecatedRetryJoinEC2.SecretAccessKey).isSome then f.DeprecatedRetryJoinEC2.SecretAccessKey else (Merge fs).DeprecatedRetryJoinEC2.SecretAccessKey)) ∧
    ((Merge (fs ++ [f])).DeprecatedRetryJoinGCE.ProjectName =
        (if (f.DeprecatedRetryJoinGCE.ProjectName).isSome then f.DeprecatedRetryJoinGCE.ProjectName else (Merge fs).DeprecatedRetryJoinGCE.ProjectName)) ∧
    ((Merge (fs ++ [f])).DeprecatedRetryJoinGCE.ZonePattern =
        (if (f.DeprecatedRetryJoinGCE.ZonePattern).isSome then f.DeprecatedRetryJoinGCE.ZonePattern else (Merge fs).DeprecatedRetryJoinGCE.ZonePattern)) ∧
    ((Merge (fs ++ [f])).DeprecatedRetryJoinGCE.TagValue =
        (if (f.DeprecatedRetryJoinGCE.TagValue).isSome then f.DeprecatedRetryJoinGCE.TagValue else (Merge fs).DeprecatedRetryJoinGCE.TagValue)) ∧
    ((Merge (fs ++ [f])).DeprecatedRetryJoinGCE.CredentialsFile =
        (if (f.DeprecatedRetryJoinGCE.CredentialsFile).isSome then f.DeprecatedRetryJoinGCE.CredentialsFile else (Merge fs).DeprecatedRetryJoinGCE.CredentialsFile)) ∧
    (∀ A B : ConfigFile,
        (Merge [A, B]).Bootstrap = (if B.Bootstrap.isSome then B.Bootstrap else A.Bootstrap)) := by
  rw [Merge_append_single]
  refine ⟨rfl, rfl, rfl, rfl, rfl, rfl, rfl, rfl, rfl, rfl, rfl, rfl, rfl, rfl, rfl, rfl, rfl, rfl, rfl, rfl, rfl, rfl, rfl, rfl, rfl, rfl, rfl, rfl, rfl, rfl, rfl, rfl, rfl, rfl, rfl, rfl, rfl, rfl, rfl, rfl, rfl, rfl, rfl, rfl, rfl, rfl, rfl, rfl, rfl, rfl, rfl, rfl, rfl, rfl, rfl, ?_⟩
  intro A B
  cases hA : A.Bootstrap <;> cases hB : B.Bootstrap <;>
    simp [Merge, mergeConfigFile, mergeScalar, emptyConfigFile, hA, hB]

/-- Merge-fold helper: folding any fragment list onto an arbitrary
accumulator appends, per list field, the fragments' entries in order. -/
theorem foldl_merge_list_fields (fs : List ConfigFile) (acc : ConfigFile) :
    ((fs.foldl mergeConfigFile acc).JoinAddrsLAN
        = acc.JoinAddrsLAN ++ (fs.map (fun f => f.JoinAddrsLAN)).flatten) ∧
    ((fs.foldl mergeConfigFile acc).JoinAddrsWAN
        = acc.JoinAddrsWAN ++ (fs.map (fun f => f.JoinAddrsWAN)).flatten) ∧
    ((fs.foldl mergeConfigFile acc).DNSRecursors
        = acc.DNSRecursors ++ (fs.map (fun f => f.DNSRecursors)).flatten) ∧
    ((fs.foldl mergeConfigFile acc).RetryJoinLAN
        = acc.RetryJoinLAN ++ (fs.map (fun f => f.RetryJoinLAN)).flatten) ∧
    ((fs.foldl mergeConfigFile acc).RetryJoinWAN
        = acc.RetryJoinWAN ++ (fs.map (fun f => f.RetryJoinWAN)).flatten) := by
  induction fs generalizing acc with
  | nil => simp
  | cons g gs ih =>
    have h := ih (mergeConfigFile acc g)
    have e1 : (mergeConfigFile acc g).JoinAddrsLAN = acc.JoinAddrsLAN ++ g.JoinAddrsLAN := rfl
    have e2 : (mergeConfigFile acc g).JoinAddrsWAN = acc.JoinAddrsWAN ++ g.JoinAddrsWAN := rfl
    have e3 : (mergeConfigFile acc g).DNSRecursors = acc.DNSRecursors ++ g.DNSRecursors := rfl
    have e4 : (mergeConfigFile acc g).RetryJoinLAN = acc.RetryJoinLAN ++ g.RetryJoinLAN := rfl
    have e5 : (mergeConfigFile acc g).RetryJoinWAN = acc.RetryJoinWAN ++ g.RetryJoinWAN := rfl
    simp only [List.foldl_cons, List.map_cons, List.flatten_cons]
    exact ⟨by rw [h.1, e1, List.append_assoc], by rw [h.2.1, e2, List.append_assoc],
      by rw [h.2.2.1, e3, List.append_assoc], by rw [h.2.2.2.1, e4, List.append_assoc],
      by rw [h.2.2.2.2, e5, List.append_assoc]⟩

/-- C5: list merge is order-preserving concatenation — for every list
field the merged list is the concatenation of the fragments' entries in
fragment order; merging additional fragments only appends (earlier
entries survive in place, never reset); and the two-singleton-fragment
join example yields [a, b]. -/
theorem merge_list_concat (fs gs : List ConfigFile) :
    ((Merge fs).JoinAddrsLAN = (fs.map (fun f => f.JoinAddrsLAN)).flatten) ∧
    ((Merge fs).JoinAddrsWAN = (fs.map (fun f => f.JoinAddrsWAN)).flatten) ∧
    ((Merge fs).DNSRecursors = (fs.map (fun f => f.DNSRecursors)).flatten) ∧
    ((Merge fs).RetryJoinLAN = (fs.map (fun f => f.RetryJoinLAN)).flatten) ∧
    ((Merge fs).RetryJoinWAN = (fs.map (fun f => f.RetryJoinWAN)).flatten) ∧
    ((Merge (fs ++ gs)).JoinAddrsLAN
        = (Merge fs).JoinAddrsLAN ++ (gs.map (fun f => f.JoinAddrsLAN)).flatten) ∧
    (∀ a b : String,
      (Merge [{ JoinAddrsLAN := [a] }, { JoinAddrsLAN := [b] }]).JoinAddrsLAN = [a, b]) := by
  have h1 : (Merge fs).JoinAddrsLAN = (fs.map (fun f => f.JoinAddrsLAN)).flatten :=
    (foldl_merge_list_fields fs emptyConfigFile).1
  refine ⟨h1, (foldl_merge_list_fields fs emptyConfigFile).2.1,
    (foldl_merge_list_fields fs emptyConfigFile).2.2.1,
    (foldl_merge_list_fields fs emptyConfigFile).2.2.2.1,
    (foldl_merge_list_fields fs emptyConfigFile).2.2.2.2, ?_, ?_⟩
  · have hg1 : (Merge (fs ++ gs)).JoinAddrsLAN
        = ((fs ++ gs).map (fun f => f.JoinAddrsLAN)).flatten :=
      (foldl_merge_list_fields (fs ++ gs) emptyConfigFile).1
    rw [hg1, h1, List.map_append, List.flatten_append]
  · intro a b
    rfl

/-- C6: map merge is whole-map replacement — a fragment contributing a
non-empty NodeMeta map replaces the accumulated map wholesale, an empty
contribution leaves it unchanged; merging two singleton-map fragments
keeps only the second fragment's entry. -/
theorem merge_map_whole_replace (fs : List ConfigFile) (f : ConfigFile) :
    ((Merge (fs ++ [f])).NodeMeta
        = (if f.NodeMeta.isEmpty then (Merge fs).NodeMeta else f.NodeMeta)) ∧
    (∀ k1 v1 k2 v2 : String,
      (Merge [{ NodeMeta := [(k1, v1)] }, { NodeMeta := [(k2, v2)] }]).NodeMeta
        = [(k2, v2)]) := by
  constructor
  · rw [Merge_append_single]
    rfl
  · intro k1 v1 k2 v2
    rfl

/-- durOk states that a CheckUpdateInterval value, when present, parses as
a duration. -/
def durOk : Option String → Bool
  | none => true
  | some s => (parseDurationE s).isOk

/-- durationVal reports no error when the interval is absent or parses. -/
theorem durationVal_ok_snd (s : Option String) (h : durOk s = true) :
    (durationVal none s).2 = none := by
  cases s with
  | none => rfl
  | some str =>
    simp only [durOk] at h
    simp only [durationVal]
    rw [if_neg (by simp), show (some str).getD "" = str from rfl]
    cases hp : parseDurationE str with
    | ok d => rfl
    | error e => rw [hp] at h; simp [Except.isOk, Except.toBool] at h

/-- durationVal surfaces an error when the interval is present and fails
to parse. -/
theorem durationVal_error (s : String) (e : String)
    (h : parseDurationE s = Except.error e) :
    durationVal none (some s) = (0, some e) := by
  simp only [durationVal]
  rw [if_neg (by simp), show (some s).getD "" = s from rfl, h]

/-- C9 (amended): a fragment with no bind address but a touched Ports
group fails resolution with the explicit "no bind address specified"
error and the zero Config; and setting the bind address makes resolution
succeed provided the fragment's CheckUpdateInterval, when present, parses
as a duration (the only other error source in NewConfig). -/
theorem no_bind_address_validation :
    (∀ f : ConfigFile, f.BindAddr = none → f.Ports ≠ emptyPorts →
      NewConfig f = (zeroConfig, some "no bind address specified")) ∧
    (∀ (f : ConfigFile) (a : String), durOk f.CheckUpdateInterval = true →
      (NewConfig { f with BindAddr := some a }).2 = none) := by
  constructor
  · intro f h1 h2
    simp only [NewConfig]
    rw [if_pos ⟨h1, h2⟩]
  · intro f a h
    simp only [NewConfig]
    rw [if_neg (by simp)]
    simpa using durationVal_ok_snd f.CheckUpdateInterval h

/-- C9 witness: concrete instances of both halves — Ports.DNS touched
without a bind address fails with the explicit error; the same fragment
with a bind address resolves without error. -/
theorem no_bind_address_validation_witness :
    NewConfig { Ports := { DNS := some 1 } } = (zeroConfig, some "no bind address specified") ∧
    (NewConfig { BindAddr := some "a", Ports := { DNS := some 1 } }).2 = none :=
  ⟨no_bind_address_validation.1 { Ports := { DNS := some 1 } } rfl (by decide),
   no_bind_address_validation.2 { Ports := { DNS := some 1 } } "a" (by decide)⟩

/-- C9 counterexample: the claim's second half fails as stated — for the
fragment with Ports.DNS set and CheckUpdateInterval "x" (unparsable),
additionally setting the bind address does not make resolution succeed:
it fails with the duration parse error. -/
theorem no_bind_address_claim_second_half_fails :
    NewConfig { CheckUpdateInterval := some "x", Ports := { DNS := some 1 } }
      = (zeroConfig, some "no bind address specified") ∧
    (NewConfig { BindAddr := some "a", CheckUpdateInterval := some "x", Ports := { DNS := some 1 } }).2.isSome = true := by
  constructor
  · decide
  · decide

/-- C10: whenever NewConfig succeeds, BindAddrs has at most one element —
exactly one when the fragment's bind address is present, none when it is
absent — and the derived DNSAddrsTCP and DNSAddrsUDP listener lists each
have at most one element. -/
theorem bind_addrs_at_most_one (f : ConfigFile) (h : (NewConfig f).2 = none) :
    (NewConfig f).1.BindAddrs.length ≤ 1 ∧
    (f.BindAddr.isSome = true → (NewConfig f).1.BindAddrs.length = 1) ∧
    (f.BindAddr = none → (NewConfig f).1.BindAddrs = []) ∧
    (NewConfig f).1.DNSAddrsTCP.length ≤ 1 ∧
    (NewConfig f).1.DNSAddrsUDP.length ≤ 1 := by
  by_cases hcond : f.BindAddr = none ∧ f.Ports ≠ emptyPorts
  · have hz : NewConfig f = (zeroConfig, some "no bind address specified") := by
      simp only [NewConfig]
      rw [if_pos hcond]
    rw [hz] at h
    simp at h
  · have hbd : (NewConfig f).1.BindAddrs
        = (if f.BindAddr.isSome then
            [addrVal (durationVal none f.CheckUpdateInterval).2 f.BindAddr] else []) := by
      simp only [NewConfig]
      rw [if_neg hcond]
    have htcp : (NewConfig f).1.DNSAddrsTCP
        = (if f.Ports.DNS.isSome then
            (NewConfig f).1.BindAddrs.map
              (fun a => joinHostPort a (NewConfig f).1.DNSPort) else []) := by
      simp only [NewConfig]
      rw [if_neg hcond]
    have hudp : (NewConfig f).1.DNSAddrsUDP
        = (if f.Ports.DNS.isSome then
            (NewConfig f).1.BindAddrs.map
              (fun a => joinHostPort a (NewConfig f).1.DNSPort) else []) := by
      simp only [NewConfig]
      rw [if_neg hcond]
    cases hcase : f.BindAddr with
    | none =>
      have hb0 : (NewConfig f).1.BindAddrs = [] := by simp [hbd, hcase]
      refine ⟨by simp [hb0], ?_, fun _ => hb0, ?_, ?_⟩
      · intro hx
        simp at hx
      · rw [htcp, hb0]
        split_ifs <;> simp
      · rw [hudp, hb0]
        split_ifs <;> simp
    | some a =>
      have hb1 : (NewConfig f).1.BindAddrs
          = [addrVal (durationVal none f.CheckUpdateInterval).2 (some a)] := by
        simp [hbd, hcase]
      refine ⟨by simp [hb1], fun _ => by simp [hb1], ?_, ?_, ?_⟩
      · intro hx
        simp at hx
      · rw [htcp, hb1]
        split_ifs <;> simp
      · rw [hudp, hb1]
        split_ifs <;> simp

/-- C10 witness: a fragment with a present bind address resolves with
exactly one BindAddrs element. -/
theorem bind_addrs_at_most_one_witness :
    ((NewConfig { BindAddr := some "1.2.3.4" }).1.BindAddrs.length = 1) ∧
    ((NewConfig { BindAddr := some "1.2.3.4" }).2 = none) :=
  ⟨(bind_addrs_at_most_one { BindAddr := some "1.2.3.4" } (by decide)).2.1 (by decide),
   by decide⟩

/-- C1 (amended): when CheckUpdateInterval is present but does not parse
as a duration, NewConfig returns a descriptive error, but the Config
returned alongside is the partially computed one, not the zero value:
Bootstrap keeps the fragment's value (assigned before the failing parse)
and JoinAddrsLAN and NodeMeta are copied from the fragment
unconditionally, while the error-guarded fields degrade to zero values
(and a present bind address degrades to the wildcard, because the guarded
stringVal yields the empty string). Only when the no-bind-address check
fires is the zero Config returned, with that check's error instead. -/
theorem duration_error_returns_partial_config (f : ConfigFile) (s : String)
    (hs : f.CheckUpdateInterval = some s) (hp : (parseDurationE s).isOk = false) :
    (NewConfig f).2.isSome = true ∧
    (¬(f.BindAddr = none ∧ f.Ports ≠ emptyPorts) →
      (NewConfig f).1.Bootstrap = f.Bootstrap.getD false ∧
      (NewConfig f).1.JoinAddrsLAN = f.JoinAddrsLAN ∧
      (NewConfig f).1.NodeMeta = f.NodeMeta ∧
      (NewConfig f).1.CheckUpdateInterval = 0 ∧
      (NewConfig f).1.Datacenter = "" ∧
      (f.BindAddr.isSome = true → (NewConfig f).1.BindAddrs = ["0.0.0.0"])) := by
  obtain ⟨e, he⟩ : ∃ e, parseDurationE s = Except.error e := by
    cases hq : parseDurationE s with
    | ok d => rw [hq] at hp; simp [Except.isOk, Except.toBool] at hp
    | error e => exact ⟨e, rfl⟩
  have hdv : durationVal none f.CheckUpdateInterval = (0, some e) := by
    rw [hs]; exact durationVal_error s e he
  by_cases hcond : f.BindAddr = none ∧ f.Ports ≠ emptyPorts
  · have hz : NewConfig f = (zeroConfig, some "no bind address specified") := by
      simp only [NewConfig]
      rw [if_pos hcond]
    rw [hz]
    exact ⟨rfl, fun hn => absurd hcond hn⟩
  · have h2 : (NewConfig f).2 = some e := by
      simp only [NewConfig, hdv]
      rw [if_neg hcond]
    have hBoot : (NewConfig f).1.Bootstrap = boolVal none f.Bootstrap := by
      simp only [NewConfig, hdv]
      rw [if_neg hcond]
    have hCUI : (NewConfig f).1.CheckUpdateInterval = 0 := by
      simp only [NewConfig, hdv]
      rw [if_neg hcond]
    have hD : (NewConfig f).1.Datacenter = stringVal (some e) f.Datacenter := by
      simp only [NewConfig, hdv]
      rw [if_neg hcond]
    have hJ : (NewConfig f).1.JoinAddrsLAN = f.JoinAddrsLAN := by
      simp only [NewConfig, hdv]
      rw [if_neg hcond]
    have hM : (NewConfig f).1.NodeMeta = f.NodeMeta := by
      simp only [NewConfig, hdv]
      rw [if_neg hcond]
    have hBA : (NewConfig f).1.BindAddrs
        = (if f.BindAddr.isSome then [addrVal (some e) f.BindAddr] else []) := by
      simp only [NewConfig, hdv]
      rw [if_neg hcond]
    refine ⟨by rw [h2]; rfl, fun _ => ⟨?_, hJ, hM, hCUI, ?_, ?_⟩⟩
    · rw [hBoot]
      simp [boolVal]
    · rw [hD]
      simp [stringVal]
    · intro hb
      rw [hBA, if_pos hb]
      cases hsome : f.BindAddr with
      | none => rw [hsome] at hb; simp at hb
      | some a => simp [addrVal, stringVal]

/-- C1 witness: the fragment with Bootstrap true and interval "x" gets an
error back together with the partially computed (non-zero) Config. -/
theorem duration_error_returns_partial_config_witness :
    ((NewConfig { Bootstrap := some true, CheckUpdateInterval := some "x" }).2.isSome = true) ∧
    ((NewConfig { Bootstrap := some true, CheckUpdateInterval := some "x" }).1.Bootstrap
      = true) :=
  have h := duration_error_returns_partial_config
    { Bootstrap := some true, CheckUpdateInterval := some "x" } "x" rfl (by decide)
  ⟨h.1, (h.2 (by decide)).1⟩

/-- C1 counterexample: with CheckUpdateInterval "x" (unparsable) and
Bootstrap true, NewConfig does return an error, but the Config returned
alongside it is not the zero Config value (Bootstrap is still true),
contrary to the claim that the partial configuration is discarded. -/
theorem duration_error_config_not_zero :
    ((NewConfig { Bootstrap := some true, CheckUpdateInterval := some "x" }).2.isSome = true) ∧
    ((NewConfig { Bootstrap := some true, CheckUpdateInterval := some "x" }).1 ≠ zeroConfig) ∧
    ((NewConfig { Bootstrap := some true, CheckUpdateInterval := some "x" }).1.Bootstrap
      = true) := by
  refine ⟨by decide, by decide, by decide⟩

/-- C2: wildcard bind-address normalization — the bind-address resolver
addrVal maps an absent or empty value to 0.0.0.0; a fragment whose bind
address is present-but-empty resolves to BindAddrs = ["0.0.0.0"]; a
synthesized host:port string renders the wildcard host as an empty host
component with the port joined literally; and the fragment with bind
address 0.0.0.0 and DNS port 123 yields DNSAddrsTCP = DNSAddrsUDP =
[":123"]. -/
theorem wildcard_bind_address_normalization :
    (∀ s : Option String, s = none ∨ s = some "" → addrVal none s = "0.0.0.0") ∧
    (∀ f : ConfigFile, f.BindAddr = some "" → (NewConfig f).1.BindAddrs = ["0.0.0.0"]) ∧
    (∀ p : Int, joinHostPort "0.0.0.0" p = ":" ++ toString p) ∧
    ((NewConfig { BindAddr := some "0.0.0.0", Ports := { DNS := some 123 } }).1.DNSAddrsTCP
        = [":123"]) ∧
    ((NewConfig { BindAddr := some "0.0.0.0", Ports := { DNS := some 123 } }).1.DNSAddrsUDP
        = [":123"]) := by
  refine ⟨?_, ?_, ?_, by decide, by decide⟩
  · intro s h
    cases h with
    | inl h => rw [h]; rfl
    | inr h => rw [h]; rfl
  · intro f hb
    simp only [NewConfig]
    rw [if_neg (by rw [hb]; simp)]
    simp only [hb, Option.isSome_some, if_true]
    cases hdv : (durationVal none f.CheckUpdateInterval).2 with
    | none => simp [hdv, addrVal, stringVal, hb]
    | some e => simp [hdv, addrVal, stringVal, hb]
  · intro p
    simp [joinHostPort, joinHostPortString, String.empty_append]

/-- C2 witness: addrVal resolves the absent and the empty bind address to
the wildcard, and the present-but-empty fragment resolves to BindAddrs
["0.0.0.0"]. -/
theorem wildcard_bind_address_normalization_witness :
    (addrVal none none = "0.0.0.0") ∧
    (addrVal none (some "") = "0.0.0.0") ∧
    ((NewConfig { BindAddr := some "" }).1.BindAddrs = ["0.0.0.0"]) ∧
    (joinHostPort "0.0.0.0" 123 = ":123") :=
  ⟨wildcard_bind_address_normalization.1 none (Or.inl rfl),
   wildcard_bind_address_normalization.1 (some "") (Or.inr rfl),
   wildcard_bind_address_normalization.2.1 { BindAddr := some "" } rfl,
   wildcard_bind_address_normalization.2.2.1 123⟩

/-- splitEqAux returns the whole list and no value when '=' is absent. -/
theorem splitEqAux_no_eq (l : List Char) (h : '=' ∉ l) : splitEqAux l = (l, none) := by
  induction l with
  | nil => rfl
  | cons c cs ih =>
    simp only [splitEqAux]
    rw [if_neg (fun hc => h (by rw [hc]; exact List.mem_cons_self '=' cs))]
    rw [ih (fun hm => h (List.mem_cons_of_mem c hm))]

/-- splitEq leaves a flag name unsplit when it has no '=' after index 0. -/
theorem splitEq_no_eq (c : Char) (cs : List Char) (h : '=' ∉ cs) :
    splitEq (c :: cs) = (c :: cs, none) := by
  simp only [splitEq]
  rw [splitEqAux_no_eq cs h]

/-- splitFirstColon finds nothing when no colon is present. -/
theorem splitFirstColon_none (l : List Char) (h : ':' ∉ l) : splitFirstColon l = none := by
  induction l with
  | nil => rfl
  | cons c cs ih =>
    simp only [splitFirstColon]
    rw [if_neg (fun hc => h (by rw [hc]; exact List.mem_cons_self ':' cs))]
    rw [ih (fun hm => h (List.mem_cons_of_mem c hm))]

/-- splitFirstColon splits at the first colon. -/
theorem splitFirstColon_append (k v : List Char) (h : ':' ∉ k) :
    splitFirstColon (k ++ ':' :: v) = some (k, v) := by
  induction k with
  | nil => simp [splitFirstColon]
  | cons c cs ih =>
    rw [List.cons_append]
    simp only [splitFirstColon]
    rw [if_neg (fun hc => h (by rw [hc]; exact List.mem_cons_self ':' cs))]
    rw [ih (fun hm => h (List.mem_cons_of_mem c hm))]

/-- mapInsert overwrites an existing key in place: inserting twice under
the same key keeps only the second value. -/
theorem mapInsert_overwrite (m : List (String × String)) (k v v2 : String) :
    mapInsert (mapInsert m k v) k v2 = mapInsert m k v2 := by
  induction m with
  | nil => simp [mapInsert]
  | cons e rest ih =>
    by_cases he : e.1 = k
    · simp [mapInsert, he]
    · simp [mapInsert, he, ih]

/-- tokenView stops on any argument that does not begin with '-'. -/
theorem tokenView_not_flag (s : String) (h : s.data.head? ≠ some '-') :
    tokenView s = TokenView.stop := by
  simp only [tokenView]
  split
  · next c cs heq => exact absurd (by rw [heq]; rfl) h
  · rfl

/-- parseOne stops on any argument that does not begin with '-'. -/
theorem parseOne_not_flag (f : Flags) (s : String) (rest : List String)
    (h : s.data.head? ≠ some '-') : parseOne f s rest = StepResult.stop := by
  simp only [parseOne, tokenView_not_flag s h]

/-- parseLoop stops, without error and keeping the flags parsed so far,
at the first argument that does not begin with '-'. -/
theorem parseLoop_stop_at_positional (n : Nat) (f : Flags) (s : String) (rest : List String)
    (h : s.data.head? ≠ some '-') : parseLoop (n + 1) f (s :: rest) = (f, none) := by
  simp only [parseLoop, parseOne_not_flag f s rest h]

/-- tokenView on a single-dash token whose name contains no '=' yields
the flag name with no value part. -/
theorem tokenView_flag (c : Char) (cs : List Char) (hc1 : c ≠ '-') (hc2 : c ≠ '=')
    (he : '=' ∉ cs) :
    tokenView (String.mk ('-' :: c :: cs)) = TokenView.flagTok (String.mk (c :: cs)) none := by
  simp only [tokenView]
  simp [hc1, hc2, splitEq_no_eq c cs he]

/-- parseOne fails on a well-formed flag token whose name is not in the
registry (and is not the special "help"/"h" name). -/
theorem parseOne_unknown_flag (f : Flags) (c : Char) (cs : List Char) (rest : List String)
    (hc1 : c ≠ '-') (hc2 : c ≠ '=') (he : '=' ∉ cs)
    (hk : flagKind (String.mk (c :: cs)) = none)
    (hh1 : String.mk (c :: cs) ≠ "help") (hh2 : String.mk (c :: cs) ≠ "h") :
    parseOne f (String.mk ('-' :: c :: cs)) rest
      = StepResult.fail ("flag provided but not defined: -" ++ String.mk (c :: cs)) := by
  simp only [parseOne, tokenView_flag c cs hc1 hc2 he, hk]
  rw [if_neg (by simp [hh1, hh2])]

/-- C3 (amended): unknown flags and malformed int/duration/map-entry flag
values fail ParseFlags with a descriptive error and the zero Flags value;
but a trailing unconsumed positional argument does not fail the parse —
Go's flag loop stops at the first non-flag argument, reports no error,
and ParseFlags discards the remaining arguments, returning the flags
accumulated so far. -/
theorem parse_failure_and_positional_semantics :
    (∀ (c : Char) (cs : List Char) (rest : List String),
       c ≠ '-' → c ≠ '=' → '=' ∉ cs → flagKind (String.mk (c :: cs)) = none →
       String.mk (c :: cs) ≠ "help" → String.mk (c :: cs) ≠ "h" →
       ParseFlags (String.mk ('-' :: c :: cs) :: rest)
         = (emptyFlags, some ("flag provided but not defined: -" ++ String.mk (c :: cs)))) ∧
    (∀ (v : String) (rest : List String), parseGoInt v = none →
       ∃ e, ParseFlags ("-dns-port" :: v :: rest) = (emptyFlags, some e)) ∧
    (∀ (v : String) (rest : List String) (e0 : String), parseDurationE v = Except.error e0 →
       ∃ e, ParseFlags ("-retry-interval" :: v :: rest) = (emptyFlags, some e)) ∧
    (∀ (v : String) (rest : List String), ':' ∉ v.data →
       ∃ e, ParseFlags ("-node-meta" :: v :: rest) = (emptyFlags, some e)) ∧
    (∀ (s : String) (rest : List String), s.data.head? ≠ some '-' →
       ParseFlags (s :: rest) = (emptyFlags, none)) ∧
    (∀ (s : String) (rest : List String), s.data.head? ≠ some '-' →
       ParseFlags ("-bind" :: "a" :: s :: rest)
         = ({ File := { BindAddr := some "a" } }, none)) := by
  refine ⟨?_, ?_, ?_, ?_, ?_, ?_⟩
  · intro c cs rest hc1 hc2 he hk hh1 hh2
    simp only [ParseFlags, List.length_cons, parseLoop,
      parseOne_unknown_flag emptyFlags c cs rest hc1 hc2 he hk hh1 hh2]
  · intro v rest hv
    have hsf : setFlag emptyFlags "dns-port" v = Except.error "invalid syntax" := by
      show setIntFlag emptyFlags v (fun f n =>
        { f with File := { f.File with Ports := { f.File.Ports with DNS := some n } } })
          = Except.error "invalid syntax"
      simp only [setIntFlag]
      rw [hv]
    have h1 : parseOne emptyFlags "-dns-port" (v :: rest)
        = StepResult.fail ("invalid value " ++ v ++ " for flag -" ++ "dns-port" ++ ": " ++
            "invalid syntax") := by
      simp only [parseOne,
        show tokenView "-dns-port" = TokenView.flagTok "dns-port" none from by decide,
        show flagKind "dns-port" = some FKind.fint from by decide, reduceCtorEq, if_false, hsf]
    refine ⟨"invalid value " ++ v ++ " for flag -" ++ "dns-port" ++ ": " ++ "invalid syntax", ?_⟩
    simp only [ParseFlags, List.length_cons, parseLoop, h1]
  · intro v rest e0 hv
    have hsf : setFlag emptyFlags "retry-interval" v = Except.error e0 := by
      show setDurationFlag emptyFlags v (fun f d =>
        { f with File := { f.File with RetryJoinIntervalLAN := some d } })
          = Except.error e0
      simp only [setDurationFlag]
      rw [hv]
    have h1 : parseOne emptyFlags "-retry-interval" (v :: rest)
        = StepResult.fail ("invalid value " ++ v ++ " for flag -" ++ "retry-interval" ++ ": " ++
            e0) := by
      simp only [parseOne,
        show tokenView "-retry-interval" = TokenView.flagTok "retry-interval" none from by decide,
        show flagKind "retry-interval" = some FKind.fduration from by decide, reduceCtorEq,
        if_false, hsf]
    refine ⟨"invalid value " ++ v ++ " for flag -" ++ "retry-interval" ++ ": " ++ e0, ?_⟩
    simp only [ParseFlags, List.length_cons, parseLoop, h1]
  · intro v rest hv
    have hsf : setFlag emptyFlags "node-meta" v
        = Except.error ("missing colon in " ++ v) := by
      show setMapFlag emptyFlags v (fun f k v2 =>
        { f with File := { f.File with NodeMeta := mapInsert f.File.NodeMeta k v2 } })
          = Except.error ("missing colon in " ++ v)
      simp only [setMapFlag]
      rw [splitFirstColon_none v.data hv]
    have h1 : parseOne emptyFlags "-node-meta" (v :: rest)
        = StepResult.fail ("invalid value " ++ v ++ " for flag -" ++ "node-meta" ++ ": " ++
            ("missing colon in " ++ v)) := by
      simp only [parseOne,
        show tokenView "-node-meta" = TokenView.flagTok "node-meta" none from by decide,
        show flagKind "node-meta" = some FKind.fmap from by decide, reduceCtorEq, if_false, hsf]
    refine ⟨"invalid value " ++ v ++ " for flag -" ++ "node-meta" ++ ": " ++
      ("missing colon in " ++ v), ?_⟩
    simp only [ParseFlags, List.length_cons, parseLoop, h1]
  · intro s rest h
    simp only [ParseFlags, List.length_cons, parseLoop_stop_at_positional _ emptyFlags s rest h]
  · intro s rest h
    have h1 : parseOne emptyFlags "-bind" ("a" :: s :: rest)
        = StepResult.cont { File := { BindAddr := some "a" } } (s :: rest) := by
      simp only [parseOne,
        show tokenView "-bind" = TokenView.flagTok "bind" none from by decide,
        show flagKind "bind" = some FKind.fstring from by decide, reduceCtorEq, if_false]
      rfl
    simp only [ParseFlags, List.length_cons, parseLoop, h1,
      parseOne_not_flag { File := { BindAddr := some "a" } } s rest h]

/-- C3 witness: concrete instances of the amended behavior — an unknown
flag fails with zero Flags; a malformed dns-port value fails; a lone
positional argument is ignored without error; a positional argument
after -bind a keeps the parsed flag and reports no error. -/
theorem parse_failure_and_positional_semantics_witness :
    (ParseFlags ["-nosuch"]
      = (emptyFlags, some ("flag provided but not defined: -" ++ "nosuch"))) ∧
    (∃ e, ParseFlags ["-dns-port", "x"] = (emptyFlags, some e)) ∧
    (ParseFlags ["x"] = (emptyFlags, none)) ∧
    (ParseFlags ["-bind", "a", "x"] = ({ File := { BindAddr := some "a" } }, none)) :=
  ⟨parse_failure_and_positional_semantics.1 'n' ['o', 's', 'u', 'c', 'h'] [] (by decide)
      (by decide) (by decide) (by decide) (by decide) (by decide),
   parse_failure_and_positional_semantics.2.1 "x" [] (by decide),
   parse_failure_and_positional_semantics.2.2.2.2.1 "x" [] (by decide),
   parse_failure_and_positional_semantics.2.2.2.2.2 "x" [] (by decide)⟩

/-- C3 counterexample: a trailing unconsumed positional argument does not
fail ParseFlags — contrary to the claim, the parse reports no error (it
silently stops and discards the argument). -/
theorem trailing_positional_reports_no_error :
    (ParseFlags ["x"]).2 = none ∧ ParseFlags ["x"] = (emptyFlags, none) := by
  constructor
  · decide
  · decide

/-- C7: map-flag accumulation within one parse — a node-meta argument is
split on the first colon into key and value (a missing colon is a parse
error), successive occurrences insert/overwrite by key into the one map
local to the parse, and -node-meta a:b -node-meta c:d produces the
fragment map holding both entries. -/
theorem node_meta_flag_accumulation :
    (∀ k v : List Char, ':' ∉ k → splitFirstColon (k ++ ':' :: v) = some (k, v)) ∧
    (∀ (f : Flags) (s : String), ':' ∉ s.data →
      setFlag f "node-meta" s = Except.error ("missing colon in " ++ s)) ∧
    (∀ (m : List (String × String)) (k v v2 : String),
      mapInsert (mapInsert m k v) k v2 = mapInsert m k v2) ∧
    (ParseFlags ["-node-meta", "a:b", "-node-meta", "c:d"]
      = ({ File := { NodeMeta := [("a", "b"), ("c", "d")] } }, none)) := by
  refine ⟨splitFirstColon_append, ?_, mapInsert_overwrite, by decide⟩
  intro f s hv
  show setMapFlag f s (fun f k v2 =>
    { f with File := { f.File with NodeMeta := mapInsert f.File.NodeMeta k v2 } })
      = Except.error ("missing colon in " ++ s)
  simp only [setMapFlag]
  rw [splitFirstColon_none s.data hv]

/-- C7 witness: concrete instances — "a" ++ ":" ++ "b" splits into key a
and value b; a colon-less argument is a parse error; keyed overwrite;
and the two-occurrence command line produces both entries. -/
theorem node_meta_flag_accumulation_witness :
    (splitFirstColon (['a'] ++ ':' :: ['b']) = some (['a'], ['b'])) ∧
    (setFlag emptyFlags "node-meta" "ab" = Except.error ("missing colon in " ++ "ab")) ∧
    (mapInsert (mapInsert [] "k" "v") "k" "w" = mapInsert [] "k" "w") :=
  ⟨node_meta_flag_accumulation.1 ['a'] ['b'] (by decide),
   node_meta_flag_accumulation.2.1 emptyFlags "ab" (by decide),
   node_meta_flag_accumulation.2.2.1 [] "k" "v" "w"⟩

/-- C8 (amended): boolean flag forms — bare -bootstrap, -bootstrap=true,
and -bootstrap=false parse as explicit presence with the stated value;
but a boolean flag never consumes the following token: in the two-token
form the flag takes the value true and the following token (whether or
not it is a boolean literal) stops flag processing as a positional
argument, so -bootstrap true and -bootstrap false both yield Bootstrap
present and true. -/
theorem bool_flag_forms :
    (ParseFlags ["-bootstrap"] = ({ File := { Bootstrap := some true } }, none)) ∧
    (ParseFlags ["-bootstrap=true"] = ({ File := { Bootstrap := some true } }, none)) ∧
    (ParseFlags ["-bootstrap=false"] = ({ File := { Bootstrap := some false } }, none)) ∧
    (∀ (v : String) (rest : List String), v.data.head? ≠ some '-' →
      ParseFlags ("-bootstrap" :: v :: rest)
        = ({ File := { Bootstrap := some true } }, none)) := by
  refine ⟨by decide, by decide, by decide, ?_⟩
  intro v rest h
  have h1 : parseOne emptyFlags "-bootstrap" (v :: rest)
      = StepResult.cont { File := { Bootstrap := some true } } (v :: rest) := by
    simp only [parseOne,
      show tokenView "-bootstrap" = TokenView.flagTok "bootstrap" none from by decide,
      show flagKind "bootstrap" = some FKind.fbool from by decide]
    rfl
  simp only [ParseFlags, List.length_cons, parseLoop, h1,
    parseOne_not_flag { File := { Bootstrap := some true } } v rest h]

/-- C8 witness: the universal two-token conjunct applied at the token
"false" — the token is not consumed as the value and the flag is true. -/
theorem bool_flag_forms_witness :
    ParseFlags ["-bootstrap", "false"] = ({ File := { Bootstrap := some true } }, none) :=
  bool_flag_forms.2.2.2 "false" [] (by decide)

/-- C8 counterexample: ParseFlags ["-bootstrap", "false"] yields Bootstrap
present and true, not false as the claim states — the boolean literal
after the flag is never consumed as its value. -/
theorem bool_flag_two_token_false_not_consumed :
    ((ParseFlags ["-bootstrap", "false"]).1.File.Bootstrap = some true) ∧
    ((ParseFlags ["-bootstrap", "false"]).1.File.Bootstrap ≠ some false) ∧
    ((ParseFlags ["-bootstrap", "false"]).2 = none) := by
  refine ⟨by decide, by decide, by decide⟩

end ConsulAgentConfig
